import Mathlib

/-!
Verification of the TAMDL firmware core (Control.c, RFID.c and the display
menu glue in DM_PowerOutput.c) against its natural-language specification.

The C sources are shallowly embedded: file-scope static variables become
fields of explicit state structures, the functions become pure Lean
functions from state to state (paired with a record of the observable
side effects they emit: log lines, display updates, timer starts), and
machine integers become Nat/Int with explicit masking where the C code
masks.  Unsigned division follows the target hardware (EFM32, an ARM
Cortex-M3): UDIV yields 0 on division by zero, which coincides with
Lean's Nat division.  Software timers (the SoftTimer pool of the
AlarmClock module, which is not part of the extracted sources) are
modelled from the specification: a countdown armed with n seconds is
decremented once per RTC tick and fires, disarming itself and running
its callback, when it reaches zero.
-/

namespace TAMDL

/-! ## RFID byte-stream decoder (RFID.c, RFID_Decode) -/

/-- RFID reader types, from RFID.h: RFID_TYPE_NONE (-1), RFID_TYPE_SR (0,
Short Range), RFID_TYPE_LR (1, Long Range). -/
inductive RFID_TYPE where
  | NONE
  | SR
  | LR
deriving DecidableEq

/-- Configuration slice used by the decoder: the reader type from
l_pRFID_Cfg.RFID_Type and the absence-detection timeout
g_RFID_AbsentDetectTimeout (seconds, 0 = feature disabled). -/
structure RFID_Config where
  rfidType : RFID_TYPE
  absentTimeout : Nat
deriving DecidableEq

/-- Decoder state: the static variables of RFID.c touched by RFID_Decode.
l_State (st), the static checksum accumulators xorsum and crc, the
14-byte receive buffer w (total function, only indices 0..13 are ever
written, as claim C10 proves), g_Transponder (empty list = empty string
= no transponder present), l_flgNewRun and l_flgNewID. -/
structure DecodeState where
  st : Nat
  xorsum : Nat
  crc : Nat
  w : Nat → Nat
  transponder : List Char
  flgNewRun : Bool
  flgNewID : Bool

/-- Observable side effects of one RFID_Decode call: whether the new-ID
notification was raised (l_flgNewID set together with storing the ID),
whether sTimerStart was invoked on the absence-detection timer, whether
a LogError diagnostic was emitted, and whether a complete valid frame
was recognised (the local flgRecvdID). -/
structure DecodeEvents where
  notified : Bool
  timerRestart : Bool
  errLogged : Bool
  completed : Bool
deriving DecidableEq

/-- Array store w[i] = v: plain if-then-else update on the buffer. -/
def store (f : Nat → Nat) (i v : Nat) : Nat → Nat :=
  fun j => if j = i then v else f j

/-- The expected Short-Range frame head bytes, array v[5] in RFID_Decode:
{ 0x0E, 0x00, 0x11, 0x00, 0x05 }. -/
def srHead (i : Nat) : Nat :=
  match i with
  | 0 => 0x0E
  | 1 => 0x00
  | 2 => 0x11
  | 3 => 0x00
  | _ => 0x05

/-- HexChar table of RFID_Decode: uppercase hexadecimal digits. -/
def HexChar (n : Nat) : Char :=
  match n with
  | 0 => '0'
  | 1 => '1'
  | 2 => '2'
  | 3 => '3'
  | 4 => '4'
  | 5 => '5'
  | 6 => '6'
  | 7 => '7'
  | 8 => '8'
  | 9 => '9'
  | 10 => 'A'
  | 11 => 'B'
  | 12 => 'C'
  | 13 => 'D'
  | 14 => 'E'
  | _ => 'F'

/-- Two uppercase-hex characters of one byte, as emitted by the copy loop
of RFID_Decode: high nibble HexChar[(b>>4) & 0x0F] then low nibble
HexChar[b & 0x0F]. -/
def hexPair (b : Nat) : List Char :=
  [HexChar ((b >>> 4) &&& 0x0F), HexChar (b &&& 0x0F)]

/-- The ASCII-HEX transponder ID built by RFID_Decode after a valid frame:
the loop for i = 0..7 renders w[8-i], i.e. buffer bytes w[8] down to
w[1], 16 characters in total. -/
def renderID (w : Nat → Nat) : List Char :=
  hexPair (w 8) ++ hexPair (w 7) ++ hexPair (w 6) ++ hexPair (w 5) ++
  hexPair (w 4) ++ hexPair (w 3) ++ hexPair (w 2) ++ hexPair (w 1)

/-- One CRC-CCITT (KERMIT) accumulation step of the Long-Range branch of
RFID_Decode; all intermediate values fit in 16 bits, so plain Nat is
exact. -/
def crcStep (crc b : Nat) : Nat :=
  let v1 := (crc >>> 4) ^^^ (((crc ^^^ (b >>> 0)) &&& 0x0F) * 4225)
  let v2 := (v1 >>> 4) ^^^ (((v1 ^^^ (b >>> 4)) &&& 0x0F) * 4225)
  v2

/-- The reader-type switch of RFID_Decode (RFID.c lines 716-840), after
the byte has been masked to 8 bits: the byte is stored at w[l_State]
and the per-type state machine consumes it.  The C switch cases with
fall-through are rendered as the equivalent ordered range tests on
l_State.  Returns the new state, the flgRecvdID flag, and whether a
LogError diagnostic (checksum/CRC mismatch dump) was emitted. -/
def decodeCore (ty : RFID_TYPE) (s : DecodeState) (b : Nat) :
    DecodeState × Bool × Bool :=
  let w1 := store s.w s.st b
  match ty with
  | RFID_TYPE.SR =>
      if s.st ≤ 4 then
        let x := if s.st = 0 then 0 else s.xorsum
        if b ≠ srHead s.st then
          ({ s with st := 0, xorsum := x, w := w1 }, false, false)
        else
          ({ s with st := s.st + 1, xorsum := x ^^^ b, w := w1 }, false, false)
      else if s.st ≤ 12 then
        ({ s with st := s.st + 1, xorsum := s.xorsum ^^^ b, w := w1 }, false, false)
      else if s.st = 13 then
        if w1 13 ≠ s.xorsum then
          ({ s with st := 0, w := w1 }, false, true)
        else
          ({ s with w := w1 }, true, false)
      else
        ({ s with st := 0, w := w1 }, false, false)
  | RFID_TYPE.LR =>
      if s.st = 0 then
        if b ≠ 0x54 then
          ({ s with st := 0, w := w1 }, false, false)
        else
          ({ s with st := 1, crc := crcStep 0 b, w := w1 }, false, false)
      else if s.st = 1 then
        ({ s with st := 2, crc := crcStep 0 b, w := w1 }, false, false)
      else if s.st ≤ 8 then
        ({ s with st := s.st + 1, crc := crcStep s.crc b, w := w1 }, false, false)
      else if s.st = 9 then
        ({ s with st := 10, w := w1 }, false, false)
      else if s.st = 10 then
        let val := (w1 10 <<< 8) ||| w1 9
        if val ≠ s.crc then
          ({ s with st := 0, w := w1 }, false, true)
        else
          ({ s with w := w1 }, true, false)
      else
        ({ s with st := 0, w := w1 }, false, false)
  | RFID_TYPE.NONE =>
      ({ s with st := 0, w := w1 }, false, false)

/-- RFID_Decode (RFID.c lines 688-881): called from the UART interrupt
per received byte.  The byte is masked to 8 bits (byte &= 0xFF), run
through the per-type state machine, and on a complete valid frame the
generic tail resets l_State, renders the ID to ASCII-HEX, stores it
with a new-ID notification when this is a new run or a different ID,
and always restarts the absence timer when the absence-detection
timeout is configured greater than zero. -/
def RFID_Decode (cfg : RFID_Config) (s : DecodeState) (byte : Nat) :
    DecodeState × DecodeEvents :=
  let b := byte % 256
  let core := decodeCore cfg.rfidType s b
  let s1 := core.1
  let recvd := core.2.1
  let errL := core.2.2
  if recvd then
    let s2 := { s1 with st := 0 }
    let newT := renderID s2.w
    let changed : Bool := s2.flgNewRun || decide (newT ≠ s2.transponder)
    let s3 :=
      if changed then
        { s2 with flgNewRun := false, transponder := newT, flgNewID := true }
      else s2
    (s3, { notified := changed, timerRestart := decide (0 < cfg.absentTimeout),
           errLogged := errL, completed := true })
  else
    (s1, { notified := false, timerRestart := false,
           errLogged := errL, completed := false })

/-- Accumulator for driving the decoder over a byte list while tallying
the observable events (notifications, absence-timer restarts, error
logs). -/
structure RunAcc where
  s : DecodeState
  notifyCnt : Nat
  timerCnt : Nat
  errCnt : Nat

/-- Feed one byte to the decoder and tally its events. -/
def stepAcc (cfg : RFID_Config) (a : RunAcc) (byte : Nat) : RunAcc :=
  let r := RFID_Decode cfg a.s byte
  { s := r.1,
    notifyCnt := a.notifyCnt + (if r.2.notified then 1 else 0),
    timerCnt := a.timerCnt + (if r.2.timerRestart then 1 else 0),
    errCnt := a.errCnt + (if r.2.errLogged then 1 else 0) }

/-- Feed a whole byte sequence (in UART arrival order) to the decoder. -/
def runBytes (cfg : RFID_Config) (a : RunAcc) (bytes : List Nat) : RunAcc :=
  bytes.foldl (stepAcc cfg) a

/-- A well-formed Short-Range frame: the five head bytes 0x0E 0x00 0x11
0x00 0x05, eight payload bytes, and a final byte equal to the XOR of
bytes 0 through 12. -/
def srFrame (p1 p2 p3 p4 p5 p6 p7 p8 : Nat) : List Nat :=
  [0x0E, 0x00, 0x11, 0x00, 0x05, p1, p2, p3, p4, p5, p6, p7, p8,
   0x0E ^^^ 0x00 ^^^ 0x11 ^^^ 0x00 ^^^ 0x05 ^^^
     p1 ^^^ p2 ^^^ p3 ^^^ p4 ^^^ p5 ^^^ p6 ^^^ p7 ^^^ p8]

/-! ## RFID reader power management (RFID.c, RFID_Enable / RFID_Disable /
RFID_Check / TransponderAbsent)

The blocks guarded by RFID_TRIGGERED_BY_LIGHT_BARRIER (chosen in
config.h, which is not among the extracted sources; RFID.h defaults it
to 1) touch only the object-present flag and the two light-barrier
timers, none of which is part of the state modelled here; the embedding
omits them. -/

/-- Power-management state slice of RFID.c: l_flgRFID_On (reader should
be on), l_flgRFID_IsOn (reader is powered), g_Transponder (empty list
= no transponder present), the absence-detection timer (armed or not;
one SoftTimer slot, l_hdlRFID_AbsentDetect), l_flgNewRun and
l_flgNewID. -/
structure RfidState where
  flgOn : Bool
  isOn : Bool
  transponder : List Char
  absentTimerArmed : Bool
  flgNewRun : Bool
  flgNewID : Bool
deriving DecidableEq

/-- RFID_Enable (RFID.c lines 312-335): marks the reader to be powered on
and re-triggers the new-run flag, so the first decoded frame of the run
always notifies. -/
def RFID_Enable (s : RfidState) : RfidState :=
  { s with flgOn := true, flgNewRun := true }

/-- RFID_Disable (RFID.c lines 347-393): marks the reader to be powered
off.  If absence detection is disabled (timeout 0) or no transponder is
present (g_Transponder empty), the absence timer is cancelled and the
reader is powered off immediately; otherwise only a deferral log
message is emitted and the power-off is left to RFID_Check after the
absence timer has cleared g_Transponder. -/
def RFID_Disable (timeout : Nat) (s : RfidState) : RfidState :=
  if s.flgOn then
    let s1 := { s with flgOn := false }
    if timeout = 0 ∨ s.transponder = [] then
      let s2 := { s1 with absentTimerArmed := false }
      if s2.isOn then { s2 with isOn := false } else s2
    else s1
  else s

/-- RFID_Check (RFID.c lines 514-557): main-loop poll that reconciles the
requested power state (l_flgRFID_On) with the actual one
(l_flgRFID_IsOn), applying the same deferral rule as RFID_Disable, and
delivers a pending new-ID notification. -/
def RFID_Check (timeout : Nat) (s : RfidState) : RfidState :=
  let s1 :=
    if s.flgOn then
      if ¬ s.isOn then { s with isOn := true } else s
    else
      if s.isOn then
        if timeout = 0 ∨ s.transponder = [] then
          { s with absentTimerArmed := false, isOn := false }
        else s
      else s
  if s1.flgNewID then { s1 with flgNewID := false } else s1

/-- TransponderAbsent (RFID.c lines 599-614): the absence-timer callback.
Logs the ID as absent and clears g_Transponder; the one-shot timer has
disarmed itself when it fires (SoftTimer contract, spec section 4.1). -/
def TransponderAbsent (s : RfidState) : RfidState :=
  { s with transponder := [], absentTimerArmed := false }

/-! ## Power outputs (Control.c, PowerOutput) -/

/-- Power output ids from Control.h: PWR_OUT_NONE = NONE = -1, then UA1,
UA2, BATT, NUM_PWR_OUT = 3. -/
def PWR_OUT_NONE : Int := -1

/-- Power output UA1 (0). -/
def PWR_OUT_UA1 : Int := 0

/-- Power output UA2 (1). -/
def PWR_OUT_UA2 : Int := 1

/-- Power output BATT (2). -/
def PWR_OUT_BATT : Int := 2

/-- Number of power outputs. -/
def NUM_PWR_OUT : Int := 3

/-- PWR_ON / PWR_OFF from Control.h. -/
def PWR_ON : Bool := true

/-- PWR_OFF from Control.h. -/
def PWR_OFF : Bool := false

/-- Convert a valid power-output id (0..2) to an index. -/
def railIdx (output : Int) : Fin 3 :=
  ⟨output.toNat % 3, Nat.mod_lt _ (by omega)⟩

/-- ADC voltage channel of measuring facility m, from l_MeasureDef:
UA1 uses adcSingleInpCh6, UA2 uses adcSingleInpCh7. -/
def ChanU : Fin 2 → Nat := fun m => if m = 0 then 6 else 7

/-- ADC current channel of measuring facility m, from l_MeasureDef:
UA1 uses adcSingleInpCh0, UA2 uses adcSingleInpCh3. -/
def ChanI : Fin 2 → Nat := fun m => if m = 0 then 0 else 3

/-- Measuring facility associated with a power output, from l_PwrOutDef:
UA1 -> MEASURE_UA1, UA2 -> MEASURE_UA2, BATT -> MEASURE_NONE. -/
def MeasureOf : Fin 3 → Option (Fin 2) :=
  fun i => if i = 0 then some 0 else if i = 1 then some 1 else none

/-- Set one channel bit in a mask (the Bit(mask, chan) = 1 bit-band
write). -/
def setBit (mask c : Nat) : Nat := mask ||| (1 <<< c)

/-- Configuration slice used by PowerOutput: per-facility follow-up times
(l_MeasureDef[m].FollowUpTime) and l_BATT_FollowUpTime. -/
structure CtrlCfg where
  followUpTime : Fin 2 → Nat
  battFollowUpTime : Nat

/-- State slice of Control.c touched by PowerOutput: the power-enable
GPIO bits, the measuring-enable GPIO bits, l_ADC_ActiveChanMask, the
follow-up timers (armed countdown or none), the previous-measurement
caches, l_BATT_MeasureInterval, l_flgLogBATT and l_flgADC_On. -/
structure CtrlState where
  railBit : Fin 3 → Bool
  measureBit : Fin 2 → Bool
  activeChanMask : Nat
  followUp : Fin 2 → Option Nat
  followUpBATT : Option Nat
  prev_mV : Fin 2 → Nat
  prev_mA : Fin 2 → Nat
  prevBATT_mV : Int
  prevBATT_mA : Int
  battMeasureInterval : Nat
  flgLogBATT : Bool
  flgADC_On : Bool

/-- Observable events of one PowerOutput call: a log line (Log or
LogError), an error log line specifically, and a display update. -/
structure CtrlEvents where
  logLine : Bool
  errLine : Bool
  displayUpdate : Bool
deriving DecidableEq

/-- No observable event. -/
def noCtrlEvents : CtrlEvents := ⟨false, false, false⟩

/-- PowerOutput (Control.c lines 767-859): switches a power output on or
off.  Order of the guards as in the source: power-fail suppresses any
enable, PWR_OUT_NONE is a silent no-op, an out-of-range id logs an
error, an output already in the requested state is a silent no-op;
otherwise the GPIO bit is written, a log line is emitted, measurement
is armed (enable) or a follow-up timer is started (disable), battery
measurement bookkeeping is done, and the display is refreshed. -/
def PowerOutput (cfg : CtrlCfg) (powerFail : Bool) (output : Int)
    (enable : Bool) (s : CtrlState) : CtrlState × CtrlEvents :=
  if enable && powerFail then (s, noCtrlEvents)
  else if output = PWR_OUT_NONE then (s, noCtrlEvents)
  else if output < 0 ∨ NUM_PWR_OUT ≤ output then (s, ⟨true, true, false⟩)
  else
    let i := railIdx output
    if s.railBit i = enable then (s, noCtrlEvents)
    else
      let s1 := { s with railBit := Function.update s.railBit i enable }
      let s2 :=
        match MeasureOf i with
        | none => s1
        | some m =>
            if enable then
              { s1 with
                followUp := Function.update s1.followUp m none,
                measureBit := Function.update s1.measureBit m true,
                activeChanMask :=
                  setBit (setBit s1.activeChanMask (ChanU m)) (ChanI m),
                prev_mV := Function.update s1.prev_mV m 0,
                prev_mA := Function.update s1.prev_mA m 0,
                flgADC_On := true }
            else
              { s1 with
                followUp :=
                  Function.update s1.followUp m (some (cfg.followUpTime m)) }
      let s3 := if enable then { s2 with prevBATT_mV := 0, prevBATT_mA := 0 } else s2
      let s4 :=
        if output = PWR_OUT_BATT then
          if enable then
            { s3 with followUpBATT := none, battMeasureInterval := 0,
                      flgLogBATT := true }
          else
            { s3 with followUpBATT := some cfg.battFollowUpTime }
        else s3
      (s4, ⟨true, false, true⟩)

/-! ## Power-cycling of one rail (Control.c, AlarmPowerControl and
IntervalPowerControl, for a rail not bridged to the RFID reader)

The SoftTimer pool itself is not part of the extracted sources; its
tick/fire behaviour is modelled from spec section 4.1. -/

/-- Cycling configuration of one rail: g_PwrInterval and g_On_Duration in
seconds (values reachable from the configuration parser are
non-negative, so Nat). -/
structure CycleCfg where
  interval : Nat
  onDuration : Nat

/-- Cycling state of one rail: the power-output bit, the rail's interval
SoftTimer (l_hdlPwrInterval slot: armed countdown or none) and the
power-fail condition consulted by PowerOutput. -/
structure CycleState where
  railOn : Bool
  timer : Option Nat
  powerFail : Bool
deriving DecidableEq

/-- IntervalPowerControl (Control.c lines 976-1035), the
pwrOut != g_RFID_Power arm: fired by the interval timer.  Returns
unchanged when Power Cycling is inactive (interval below
MIN_VAL_INTERVAL = 10); otherwise toggles the output via PowerOutput
(an enable is refused during power-fail) and rearms the timer with
Interval - OnDuration (after switching off) or OnDuration (after
switching on).  The pwrOut == g_RFID_Power arm (Control.c lines
1019-1032), which calls RFID_Enable / RFID_Disable instead of
PowerOutput, is embedded separately as IntervalPowerControlRFID. -/
def IntervalPowerControl (cfg : CycleCfg) (s : CycleState) : CycleState :=
  if cfg.interval < 10 then s
  else if s.railOn then
    { s with railOn := false, timer := some (cfg.interval - cfg.onDuration) }
  else
    { s with railOn := if s.powerFail then s.railOn else true,
             timer := some cfg.onDuration }

/-- Modelled from the spec: one RTC-second tick of the rail's interval
SoftTimer (the SoftTimer/AlarmClock module is not among the extracted
sources).  Spec section 4.1: the tick decrements every armed countdown;
on reaching zero the timer disarms itself and invokes its callback
(here IntervalPowerControl) synchronously. -/
def sTimerTick (cfg : CycleCfg) (s : CycleState) : CycleState :=
  match s.timer with
  | none => s
  | some n =>
      if n ≤ 1 then IntervalPowerControl cfg { s with timer := none }
      else { s with timer := some (n - 1) }

/-- AlarmPowerControl (Control.c lines 896-960), ON-alarm case, the
pwrOut != g_RFID_Power arm: starts the interval timer with OnDuration
when OnDuration >= MIN_VAL_ON_DURATION (5), then switches the output on
via PowerOutput (refused during power-fail).  The pwrOut ==
g_RFID_Power arm (Control.c lines 944-952) calls RFID_Enable instead
and is embedded as AlarmPowerControlONbridged. -/
def AlarmPowerControlON (cfg : CycleCfg) (s : CycleState) : CycleState :=
  let s1 := if 5 ≤ cfg.onDuration then { s with timer := some cfg.onDuration } else s
  { s1 with railOn := if s1.powerFail then s1.railOn else true }

/-- AlarmPowerControl, OFF-alarm case, the pwrOut != g_RFID_Power arm:
cancels the interval timer and switches the output off (disabling
always succeeds).  The pwrOut == g_RFID_Power arm calls RFID_Disable
instead, which may defer the physical switch-off; it is embedded as
AlarmPowerControlOFFbridged. -/
def AlarmPowerControlOFF (s : CycleState) : CycleState :=
  { s with timer := none, railOn := false }

/-- Closed form of the cycling run: at t seconds after the ON alarm the
rail is on with the timer counting down the ON phase when
t mod Interval < OnDuration, and off counting down the OFF phase
otherwise. -/
def cycleAt (cfg : CycleCfg) (t : Nat) : CycleState :=
  if t % cfg.interval < cfg.onDuration then
    ⟨true, some (cfg.onDuration - t % cfg.interval), false⟩
  else
    ⟨false, some (cfg.interval - t % cfg.interval), false⟩

/-! ## Power-cycling of the rail that powers the RFID reader
(Control.c, AlarmPowerControl lines 944-957 and IntervalPowerControl
lines 1019-1032, together with the RFID.c power management)

For the rail configured as RFID_POWER, the ON/OFF transitions call
RFID_Enable / RFID_Disable instead of PowerOutput.  The physical output
bit of that rail is switched by RFID_PowerOn / RFID_PowerOff, which
RFID_Check runs from the main loop, so (with power-fail deasserted, as
throughout this model) the bit equals l_flgRFID_IsOn. -/

/-- Cycling state of the rail that powers the RFID reader: the rail's
interval SoftTimer slot and the RFID power-management state (whose isOn
field mirrors the rail's output bit, see section comment). -/
structure BridgedState where
  timer : Option Nat
  rfid : RfidState
deriving DecidableEq

/-- The generic tail of RFID_Decode for a validated frame (RFID.c lines
843-880), restricted to the RfidState slice: store the ID and set
l_flgNewID when this is a new run or a different ID, and always restart
the absence timer when the timeout is configured.  Consistent with
RFID_Decode above (proved on DecodeState for claims C1/C5). -/
def TransponderSeen (id : List Char) (timeout : Nat) (s : RfidState) : RfidState :=
  let s1 :=
    if s.flgNewRun || decide (id ≠ s.transponder) then
      { s with transponder := id, flgNewRun := false, flgNewID := true }
    else s
  if 0 < timeout then { s1 with absentTimerArmed := true } else s1

/-- IntervalPowerControl (Control.c lines 976-1035), the
pwrOut == g_RFID_Power arm: when Power Cycling is active, it reads the
rail's output bit (IsPowerOutputOn, which for this rail equals
l_flgRFID_IsOn), rearms the interval timer, and calls RFID_Disable
(which may defer the physical switch-off) or RFID_Enable. -/
def IntervalPowerControlRFID (cfg : CycleCfg) (timeout : Nat)
    (s : BridgedState) : BridgedState :=
  if cfg.interval < 10 then s
  else if s.rfid.isOn then
    { timer := some (cfg.interval - cfg.onDuration),
      rfid := RFID_Disable timeout s.rfid }
  else
    { timer := some cfg.onDuration, rfid := RFID_Enable s.rfid }

/-- Modelled from the spec: one RTC-second tick of the bridged rail's
interval SoftTimer (spec section 4.1, as for sTimerTick above). -/
def sTimerTickRFID (cfg : CycleCfg) (timeout : Nat) (s : BridgedState) :
    BridgedState :=
  match s.timer with
  | none => s
  | some n =>
      if n ≤ 1 then IntervalPowerControlRFID cfg timeout { s with timer := none }
      else { s with timer := some (n - 1) }

/-- AlarmPowerControl (Control.c lines 896-960), ON-alarm case, the
pwrOut == g_RFID_Power arm: starts the interval timer with OnDuration
when OnDuration >= MIN_VAL_ON_DURATION (5), then calls RFID_Enable. -/
def AlarmPowerControlONbridged (cfg : CycleCfg) (s : BridgedState) : BridgedState :=
  let s1 := if 5 ≤ cfg.onDuration then { s with timer := some cfg.onDuration } else s
  { s1 with rfid := RFID_Enable s1.rfid }

/-- AlarmPowerControl, OFF-alarm case, the pwrOut == g_RFID_Power arm:
cancels the interval timer and calls RFID_Disable (which may defer the
physical switch-off). -/
def AlarmPowerControlOFFbridged (timeout : Nat) (s : BridgedState) : BridgedState :=
  { timer := none, rfid := RFID_Disable timeout s.rfid }

/-- One second of the bridged rail with the transponder continuously in
reading range: the RTC tick drives the interval timer (the absence
timer, re-armed by every decoded frame, is always at its full timeout
and therefore never expires between frames), one frame is decoded from
the UART interrupt, and the main loop runs RFID_Check. -/
def bridgedSecond (cfg : CycleCfg) (timeout : Nat) (id : List Char)
    (s : BridgedState) : BridgedState :=
  let s1 := sTimerTickRFID cfg timeout s
  let s2 := { s1 with rfid := TransponderSeen id timeout s1.rfid }
  { s2 with rfid := RFID_Check timeout s2.rfid }

/-! ## Power-alarm attribution (Control.c, AlarmPowerControl) -/

/-- Modelled from the spec: the ALARM_ID enum lives in config.h, which is
not among the extracted sources.  Its layout is fixed by the
specification (five ON times each for UA1, UA2, BATT, followed by five
OFF times each for UA1, UA2, BATT) and by the l_CfgVarList order in
Control.c (which must be kept in sync with ALARM_ID).  Ids are taken
relative to FIRST_POWER_ALARM = ALARM_UA1_ON_TIME_1 = 0. -/
def ALARM_UA1_ON_TIME_1 : Nat := 0

/-- First UA2 ON-time alarm id. -/
def ALARM_UA2_ON_TIME_1 : Nat := 5

/-- First BATT ON-time alarm id. -/
def ALARM_BATT_ON_TIME_1 : Nat := 10

/-- First UA1 OFF-time alarm id. -/
def ALARM_UA1_OFF_TIME_1 : Nat := 15

/-- First UA2 OFF-time alarm id. -/
def ALARM_UA2_OFF_TIME_1 : Nat := 20

/-- First BATT OFF-time alarm id. -/
def ALARM_BATT_OFF_TIME_1 : Nat := 25

/-- Number of power alarms (5 ON + 5 OFF for each of the three rails). -/
def NUM_POWER_ALARMS : Nat := 30

/-- Switching state derived by AlarmPowerControl (Control.c line 905):
PWR_OFF exactly when the alarm id is at or beyond
ALARM_UA1_OFF_TIME_1. -/
def alarmPwrState (alarmNum : Nat) : Bool :=
  if ALARM_UA1_OFF_TIME_1 ≤ alarmNum then PWR_OFF else PWR_ON

/-- Power output derived by AlarmPowerControl (Control.c lines 908-931)
by ordered range comparisons on the alarm id. -/
def alarmPwrOut (alarmNum : Nat) : Int :=
  if ALARM_BATT_OFF_TIME_1 ≤ alarmNum then PWR_OUT_BATT
  else if ALARM_UA2_OFF_TIME_1 ≤ alarmNum then PWR_OUT_UA2
  else if ALARM_UA1_OFF_TIME_1 ≤ alarmNum then PWR_OUT_UA1
  else if ALARM_BATT_ON_TIME_1 ≤ alarmNum then PWR_OUT_BATT
  else if ALARM_UA2_ON_TIME_1 ≤ alarmNum then PWR_OUT_UA2
  else PWR_OUT_UA1

/-- Intended attribution per the specified 30-entry layout (this
definition follows the words of the spec, for comparison with the
range-check derivation of the source): the rail is the one whose
contiguous five-id group contains the id (groups in order UA1, UA2,
BATT, UA1, UA2, BATT). -/
def alarmLayoutRail (alarmNum : Nat) : Int := ((alarmNum / 5) % 3 : Nat)

/-- Intended direction per the specified layout: OFF exactly for ids at
or beyond the first UA1 OFF id. -/
def alarmLayoutIsOff (alarmNum : Nat) : Bool :=
  decide (ALARM_UA1_OFF_TIME_1 ≤ alarmNum)

/-! ## Configuration verification (Control.c, VerifyConfiguration) -/

/-- MIN_VAL_INTERVAL (10 s). -/
def MIN_VAL_INTERVAL : Int := 10

/-- MIN_VAL_ON_DURATION (5 s). -/
def MIN_VAL_ON_DURATION : Int := 5

/-- MIN_VAL_OFF_DURATION (5 s). -/
def MIN_VAL_OFF_DURATION : Int := 5

/-- Result of verifying one rail: the (possibly forced) interval and
on-duration, and whether a warning was logged. -/
structure VerifyResult where
  interval : Int
  duration : Int
  errLogged : Bool
deriving DecidableEq

/-- Per-rail body of the Power Cycle Interval loop of VerifyConfiguration
(Control.c lines 460-496): a non-positive interval means the channel is
inactive and is skipped; otherwise the three ordered checks each log an
error, and any error forces interval and duration to the sentinel -1.
The function is total: verification never halts the system. -/
def VerifyConfigRail (interval duration : Int) : VerifyResult :=
  if interval ≤ 0 then ⟨interval, duration, false⟩
  else if interval < MIN_VAL_INTERVAL then ⟨-1, -1, true⟩
  else if duration < MIN_VAL_ON_DURATION then ⟨-1, -1, true⟩
  else if interval - duration < MIN_VAL_OFF_DURATION then ⟨-1, -1, true⟩
  else ⟨interval, duration, false⟩

/-! ## Calibration (Control.c, CalibrateVoltage / CalibrateCurrent, and
DM_PowerOutput.c, MenuCalibrateOutput) -/

/-- Calibration state slice: the raw ADC samples l_ADC_Value (UA1:
[0]=voltage [1]=current, UA2: [2]=voltage [3]=current) and the
divisors l_mV_Divider / l_mA_Divider. -/
structure CalibState where
  adcValue : Fin 4 → Nat
  mV_Divider : Fin 2 → Nat
  mA_Divider : Fin 2 → Nat

/-- CalibrateVoltage (Control.c lines 1409-1421): unconditionally
recomputes l_mV_Divider[output] = (l_ADC_Value[output*2] << 16) /
referenceValue_mV.  There is no zero-reference guard in this function;
on the target hardware a division by zero yields quotient 0 (matching
Lean's Nat division). -/
def CalibrateVoltage (output : Fin 2) (ref_mV : Nat) (s : CalibState) : CalibState :=
  let idx : Fin 4 := ⟨output.val * 2, by omega⟩
  { s with mV_Divider :=
      Function.update s.mV_Divider output ((s.adcValue idx <<< 16) / ref_mV) }

/-- CalibrateCurrent (Control.c lines 1440-1452): unconditionally
recomputes l_mA_Divider[output] = (l_ADC_Value[output*2+1] << 16) /
referenceValue_mA; no zero-reference guard. -/
def CalibrateCurrent (output : Fin 2) (ref_mA : Nat) (s : CalibState) : CalibState :=
  let idx : Fin 4 := ⟨output.val * 2 + 1, by omega⟩
  { s with mA_Divider :=
      Function.update s.mA_Divider output ((s.adcValue idx <<< 16) / ref_mA) }

/-- The KEYCODE_SET_RELEASE branch of MenuCalibrateOutput
(DM_PowerOutput.c lines 406-415): when the configured mV reference
g_UA_Calib_mV[idx] is 0 the calibration is skipped entirely
(CALIBRATION IS NOT POSSIBLE); otherwise both CalibrateVoltage and
CalibrateCurrent are invoked with the configured references -- the mA
reference is not checked for zero. -/
def MenuCalibrateOutputSET (output : Fin 2) (cal_mV cal_mA : Nat)
    (s : CalibState) : CalibState :=
  if cal_mV = 0 then s
  else CalibrateCurrent output cal_mA (CalibrateVoltage output cal_mV s)

/-- A concrete calibration state used to exhibit the missing
zero-reference guard. -/
def calibDemoState : CalibState :=
  ⟨fun _ => 2048, fun _ => 41781, fun _ => 33196⟩

/-! ## Calibration data storage (Control.c, ReadCalibrationData /
WriteCalibrationData)

The EEPROM emulation layer (eeprom_emulation.c) is not among the
extracted sources; the stored block is modelled from the spec as a
fixed-layout image of ten 16-bit words (magic word, four divisor
half-word pairs, checksum word), addressed here as 20 bytes with each
word k occupying bytes 2k (low) and 2k+1 (high). -/

/-- MAGIC_ID for the EEPROM (flash) block. -/
def MAGIC_ID : Nat := 0x0815

/-- The four calibration divisors stored in the EEPROM block:
l_mV_Divider[0], l_mA_Divider[0], l_mV_Divider[1], l_mA_Divider[1]. -/
structure CalibDividers where
  ua1mV : Nat
  ua1mA : Nat
  ua2mV : Nat
  ua2mA : Nat
deriving DecidableEq

/-- The 16-bit word k of a byte image. -/
def wordAt (b : Nat → Nat) (k : Nat) : Nat := b (2 * k) + 256 * b (2 * k + 1)

/-- Byte image of a sequence of 16-bit words. -/
def bytesOfWords (w : Nat → Nat) : Nat → Nat :=
  fun j => if j % 2 = 0 then w (j / 2) % 256 else (w (j / 2) / 256) % 256

/-- The ten 16-bit words written by WriteCalibrationData (Control.c lines
1520-1565): MAGIC_ID, then high and low half of l_mV_Divider[0],
l_mA_Divider[0], l_mV_Divider[1], l_mA_Divider[1], then the 16-bit sum
of all previous words (uint16_t accumulation, i.e. mod 2^16). -/
def calibWords (d : CalibDividers) : Nat → Nat := fun k =>
  match k with
  | 0 => MAGIC_ID
  | 1 => (d.ua1mV >>> 16) &&& 0xFFFF
  | 2 => d.ua1mV &&& 0xFFFF
  | 3 => (d.ua1mA >>> 16) &&& 0xFFFF
  | 4 => d.ua1mA &&& 0xFFFF
  | 5 => (d.ua2mV >>> 16) &&& 0xFFFF
  | 6 => d.ua2mV &&& 0xFFFF
  | 7 => (d.ua2mA >>> 16) &&& 0xFFFF
  | 8 => d.ua2mA &&& 0xFFFF
  | _ => (MAGIC_ID + ((d.ua1mV >>> 16) &&& 0xFFFF) + (d.ua1mV &&& 0xFFFF)
          + ((d.ua1mA >>> 16) &&& 0xFFFF) + (d.ua1mA &&& 0xFFFF)
          + ((d.ua2mV >>> 16) &&& 0xFFFF) + (d.ua2mV &&& 0xFFFF)
          + ((d.ua2mA >>> 16) &&& 0xFFFF) + (d.ua2mA &&& 0xFFFF)) % 65536

/-- WriteCalibrationData as the byte image it leaves in storage. -/
def WriteCalibrationData (d : CalibDividers) : Nat → Nat :=
  bytesOfWords (calibWords d)

/-- The unity divisor defaults (1L << 16) used when the block is
invalid. -/
def unityCalib : CalibDividers :=
  ⟨1 <<< 16, 1 <<< 16, 1 <<< 16, 1 <<< 16⟩

/-- ReadCalibrationData (Control.c lines 1464-1509): reads the magic
word; when it matches, reads the eight divisor halves (recombining
each pair as (high << 16) + low) while accumulating the 16-bit sum,
then reads the checksum word.  When the magic word or the checksum
does not match, all four divisors fall back to the unity defaults. -/
def ReadCalibrationData (b : Nat → Nat) : CalibDividers :=
  let w := wordAt b
  let sum := (w 0 + w 1 + w 2 + w 3 + w 4 + w 5 + w 6 + w 7 + w 8) % 65536
  if w 0 = MAGIC_ID ∧ sum = w 9 then
    ⟨(w 1 <<< 16) + w 2, (w 3 <<< 16) + w 4,
     (w 5 <<< 16) + w 6, (w 7 <<< 16) + w 8⟩
  else unityCalib

/-! ## Concrete states used by the witness theorems -/

/-- A fresh decoder state: index 0, cleared buffer, empty transponder,
new run marked (as RFID_Enable leaves it). -/
def demoDecodeState : DecodeState :=
  ⟨0, 0, 0, fun _ => 0, [], true, false⟩

/-- A concrete control configuration (one-minute follow-up times). -/
def demoCtrlCfg : CtrlCfg :=
  ⟨fun _ => 60, 60⟩

/-- A concrete control state with all outputs on. -/
def demoCtrlState : CtrlState :=
  ⟨fun _ => true, fun _ => true, 0, fun _ => none, none,
   fun _ => 0, fun _ => 0, 0, 0, 0, false, false⟩

/-- A concrete RFID power state: reader enabled and powered, transponder
present. -/
def demoRfidState : RfidState :=
  ⟨true, true, ['1', '2'], true, false, false⟩

/-- A concrete cycling state: rail off, timer disarmed, no power-fail. -/
def demoCycleState : CycleState :=
  ⟨false, none, false⟩

/-- Start of the C3 counterexample trace: the ON alarm fires for the
RFID-powered rail (Interval 30 s, OnDuration 10 s -- a configuration
that passes verification), with the reader off, no transponder stored,
absence detection configured for 5 s; the main loop then powers the
reader on via RFID_Check. -/
def bridgedStart : BridgedState :=
  let s0 := AlarmPowerControlONbridged ⟨30, 10⟩
    ⟨none, ⟨false, false, [], false, false, false⟩⟩
  { s0 with rfid := RFID_Check 5 s0.rfid }

/-- The C3 counterexample trace, t seconds after the ON alarm, with a
transponder continuously in reading range from the first second on. -/
def demoBridgedRun (t : Nat) : BridgedState :=
  (bridgedSecond ⟨30, 10⟩ 5 ['7', '8'])^[t] bridgedStart

/-- A concrete divisor table for the storage round-trip witness. -/
def demoDivisors : CalibDividers := ⟨70000, 123456, 1, 4294967295⟩

/-! ## Helper lemmas -/

theorem xor_lt_256 {a b : Nat} (ha : a < 256) (hb : b < 256) : a ^^^ b < 256 :=
  Nat.xor_lt_two_pow (n := 8) ha hb

theorem decodeCore_st (ty : RFID_TYPE) (s : DecodeState) (b : Nat) (h : s.st ≤ 13) :
    (decodeCore ty s b).1.st ≤ 13
    ∧ ((decodeCore ty s b).2.2 = true → (decodeCore ty s b).1.st = 0) := by
  unfold decodeCore
  cases ty <;> dsimp only [] <;> first
    | (split_ifs <;> simp <;> omega)
    | simp

theorem decode_st_le (cfg : RFID_Config) (s : DecodeState) (b : Nat) (h : s.st ≤ 13) :
    (RFID_Decode cfg s b).1.st ≤ 13 := by
  have hc := decodeCore_st cfg.rfidType s (b % 256) h
  unfold RFID_Decode
  cases hrec : (decodeCore cfg.rfidType s (b % 256)).2.1
  · simpa [hrec] using hc.1
  · simp [hrec]
    split_ifs <;> simp

theorem runBytes_st_le (cfg : RFID_Config) (a : RunAcc) (bytes : List Nat)
    (h : a.s.st ≤ 13) : (runBytes cfg a bytes).s.st ≤ 13 := by
  induction bytes generalizing a with
  | nil => exact h
  | cons x xs ih =>
      exact ih _ (decode_st_le cfg a.s x h)

/-! ## Claim theorems -/

/-- Claim C1: for every UART byte stream that, starting from decoder
state 0 with a new scanning run marked, delivers one well-formed
Short-Range frame to RFID_Decode (head bytes 0x0E 0x00 0x11 0x00 0x05,
then 8 payload bytes, then a 14th byte equal to the XOR of bytes 0
through 12), the decoder raises exactly one new-ID notification, stores
in g_Transponder the 16-character uppercase-hex rendering of buffer
bytes w[8] down to w[1] (reverse order: payload bytes p4 p3 p2 p1
followed by head bytes 0x05 0x00 0x11 0x00), and returns to state 0. -/
theorem spec_C1 (p1 p2 p3 p4 p5 p6 p7 p8 : Nat)
    (h1 : p1 < 256) (h2 : p2 < 256) (h3 : p3 < 256) (h4 : p4 < 256)
    (h5 : p5 < 256) (h6 : p6 < 256) (h7 : p7 < 256) (h8 : p8 < 256)
    (cfg : RFID_Config) (hty : cfg.rfidType = RFID_TYPE.SR)
    (s : DecodeState) (hst : s.st = 0) (hrun : s.flgNewRun = true) :
    (runBytes cfg ⟨s, 0, 0, 0⟩ (srFrame p1 p2 p3 p4 p5 p6 p7 p8)).notifyCnt = 1
    ∧ (runBytes cfg ⟨s, 0, 0, 0⟩ (srFrame p1 p2 p3 p4 p5 p6 p7 p8)).s.transponder =
        hexPair p4 ++ hexPair p3 ++ hexPair p2 ++ hexPair p1 ++
        hexPair 0x05 ++ hexPair 0x00 ++ hexPair 0x11 ++ hexPair 0x00
    ∧ (runBytes cfg ⟨s, 0, 0, 0⟩ (srFrame p1 p2 p3 p4 p5 p6 p7 p8)).s.st = 0 := by
  have hx : 26 ^^^ p1 ^^^ p2 ^^^ p3 ^^^ p4 ^^^ p5 ^^^ p6 ^^^ p7 ^^^ p8 < 256 :=
    xor_lt_256 (xor_lt_256 (xor_lt_256 (xor_lt_256 (xor_lt_256 (xor_lt_256
      (xor_lt_256 (xor_lt_256 (by decide) h1) h2) h3) h4) h5) h6) h7) h8
  have hx2 : ¬ (256 ≤ 26 ^^^ p1 ^^^ p2 ^^^ p3 ^^^ p4 ^^^ p5 ^^^ p6 ^^^ p7 ^^^ p8) :=
    Nat.not_le.mpr hx
  refine ⟨?_, ?_, ?_⟩ <;>
  simp +decide [runBytes, srFrame, stepAcc, RFID_Decode, decodeCore, store, srHead,
    renderID, hexPair, hst, hrun, hty, hx2, Nat.mod_eq_of_lt hx,
    Nat.mod_eq_of_lt h1, Nat.mod_eq_of_lt h2, Nat.mod_eq_of_lt h3,
    Nat.mod_eq_of_lt h4, Nat.mod_eq_of_lt h5, Nat.mod_eq_of_lt h6,
    Nat.mod_eq_of_lt h7, Nat.mod_eq_of_lt h8]

/-- Witness for C1 at a concrete frame and fresh decoder state. -/
theorem spec_C1_witness :
    (0x12 : Nat) < 256 ∧ (0xF0 : Nat) < 256
    ∧ (RFID_Config.mk RFID_TYPE.SR 5).rfidType = RFID_TYPE.SR
    ∧ demoDecodeState.st = 0 ∧ demoDecodeState.flgNewRun = true
    ∧ ((runBytes ⟨RFID_TYPE.SR, 5⟩ ⟨demoDecodeState, 0, 0, 0⟩
          (srFrame 0x12 0x34 0x56 0x78 0x9A 0xBC 0xDE 0xF0)).notifyCnt = 1
       ∧ (runBytes ⟨RFID_TYPE.SR, 5⟩ ⟨demoDecodeState, 0, 0, 0⟩
          (srFrame 0x12 0x34 0x56 0x78 0x9A 0xBC 0xDE 0xF0)).s.transponder =
          hexPair 0x78 ++ hexPair 0x56 ++ hexPair 0x34 ++ hexPair 0x12 ++
          hexPair 0x05 ++ hexPair 0x00 ++ hexPair 0x11 ++ hexPair 0x00
       ∧ (runBytes ⟨RFID_TYPE.SR, 5⟩ ⟨demoDecodeState, 0, 0, 0⟩
          (srFrame 0x12 0x34 0x56 0x78 0x9A 0xBC 0xDE 0xF0)).s.st = 0) :=
  ⟨by decide, by decide, rfl, rfl, rfl,
   spec_C1 0x12 0x34 0x56 0x78 0x9A 0xBC 0xDE 0xF0
     (by decide) (by decide) (by decide) (by decide)
     (by decide) (by decide) (by decide) (by decide)
     ⟨RFID_TYPE.SR, 5⟩ rfl demoDecodeState rfl rfl⟩

/-- Claim C5: feeding the same valid Short-Range frame twice
consecutively (no intervening new-run mark) raises exactly one new-ID
notification in total, and whenever the absence-detection timeout is
configured greater than 0 the absence timer is restarted on both
occurrences. -/
theorem spec_C5 (p1 p2 p3 p4 p5 p6 p7 p8 : Nat)
    (h1 : p1 < 256) (h2 : p2 < 256) (h3 : p3 < 256) (h4 : p4 < 256)
    (h5 : p5 < 256) (h6 : p6 < 256) (h7 : p7 < 256) (h8 : p8 < 256)
    (cfg : RFID_Config) (hty : cfg.rfidType = RFID_TYPE.SR)
    (s : DecodeState) (hst : s.st = 0) (hrun : s.flgNewRun = true) :
    (runBytes cfg ⟨s, 0, 0, 0⟩
        (srFrame p1 p2 p3 p4 p5 p6 p7 p8 ++
         srFrame p1 p2 p3 p4 p5 p6 p7 p8)).notifyCnt = 1
    ∧ (0 < cfg.absentTimeout →
        (runBytes cfg ⟨s, 0, 0, 0⟩
          (srFrame p1 p2 p3 p4 p5 p6 p7 p8 ++
           srFrame p1 p2 p3 p4 p5 p6 p7 p8)).timerCnt = 2) := by
  have hx : 26 ^^^ p1 ^^^ p2 ^^^ p3 ^^^ p4 ^^^ p5 ^^^ p6 ^^^ p7 ^^^ p8 < 256 :=
    xor_lt_256 (xor_lt_256 (xor_lt_256 (xor_lt_256 (xor_lt_256 (xor_lt_256
      (xor_lt_256 (xor_lt_256 (by decide) h1) h2) h3) h4) h5) h6) h7) h8
  have hx2 : ¬ (256 ≤ 26 ^^^ p1 ^^^ p2 ^^^ p3 ^^^ p4 ^^^ p5 ^^^ p6 ^^^ p7 ^^^ p8) :=
    Nat.not_le.mpr hx
  constructor
  · simp +decide [runBytes, srFrame, stepAcc, RFID_Decode, decodeCore, store, srHead,
      renderID, hexPair, hst, hrun, hty, hx2, Nat.mod_eq_of_lt hx,
      Nat.mod_eq_of_lt h1, Nat.mod_eq_of_lt h2, Nat.mod_eq_of_lt h3,
      Nat.mod_eq_of_lt h4, Nat.mod_eq_of_lt h5, Nat.mod_eq_of_lt h6,
      Nat.mod_eq_of_lt h7, Nat.mod_eq_of_lt h8]
  · intro htmo
    simp +decide [runBytes, srFrame, stepAcc, RFID_Decode, decodeCore, store, srHead,
      renderID, hexPair, hst, hrun, hty, hx2, Nat.mod_eq_of_lt hx, htmo,
      Nat.mod_eq_of_lt h1, Nat.mod_eq_of_lt h2, Nat.mod_eq_of_lt h3,
      Nat.mod_eq_of_lt h4, Nat.mod_eq_of_lt h5, Nat.mod_eq_of_lt h6,
      Nat.mod_eq_of_lt h7, Nat.mod_eq_of_lt h8]

/-- Witness for C5 at a concrete frame, fresh state and timeout 5. -/
theorem spec_C5_witness :
    (0x12 : Nat) < 256
    ∧ (RFID_Config.mk RFID_TYPE.SR 5).rfidType = RFID_TYPE.SR
    ∧ demoDecodeState.st = 0 ∧ demoDecodeState.flgNewRun = true
    ∧ (0 : Nat) < 5
    ∧ ((runBytes ⟨RFID_TYPE.SR, 5⟩ ⟨demoDecodeState, 0, 0, 0⟩
          (srFrame 0x12 0x34 0x56 0x78 0x9A 0xBC 0xDE 0xF0 ++
           srFrame 0x12 0x34 0x56 0x78 0x9A 0xBC 0xDE 0xF0)).notifyCnt = 1
       ∧ (runBytes ⟨RFID_TYPE.SR, 5⟩ ⟨demoDecodeState, 0, 0, 0⟩
          (srFrame 0x12 0x34 0x56 0x78 0x9A 0xBC 0xDE 0xF0 ++
           srFrame 0x12 0x34 0x56 0x78 0x9A 0xBC 0xDE 0xF0)).timerCnt = 2) := by
  have h := spec_C5 0x12 0x34 0x56 0x78 0x9A 0xBC 0xDE 0xF0
    (by decide) (by decide) (by decide) (by decide)
    (by decide) (by decide) (by decide) (by decide)
    ⟨RFID_TYPE.SR, 5⟩ rfl demoDecodeState rfl rfl
  exact ⟨by decide, rfl, rfl, rfl, by decide, h.1, h.2 (by decide)⟩

/-- Claim C10: for every byte fed to RFID_Decode, in every reader mode,
the decoder index l_State stays in 0..13, so the store into the 14-byte
buffer w never goes out of bounds, and this is preserved along every
byte sequence; every frame completion, checksum/CRC failure, or head
byte violation resets l_State to 0. -/
theorem spec_C10 (cfg : RFID_Config) (s : DecodeState) (b : Nat) (h : s.st ≤ 13) :
    (RFID_Decode cfg s b).1.st ≤ 13
    ∧ ((RFID_Decode cfg s b).2.completed = true → (RFID_Decode cfg s b).1.st = 0)
    ∧ ((RFID_Decode cfg s b).2.errLogged = true → (RFID_Decode cfg s b).1.st = 0)
    ∧ (cfg.rfidType = RFID_TYPE.SR → s.st ≤ 4 → b % 256 ≠ srHead s.st →
        (RFID_Decode cfg s b).1.st = 0)
    ∧ (cfg.rfidType = RFID_TYPE.LR → s.st = 0 → b % 256 ≠ 0x54 →
        (RFID_Decode cfg s b).1.st = 0)
    ∧ (∀ bytes : List Nat, ∀ nc tc ec : Nat,
        (runBytes cfg ⟨s, nc, tc, ec⟩ bytes).s.st ≤ 13) := by
  have hc := decodeCore_st cfg.rfidType s (b % 256) h
  refine ⟨decode_st_le cfg s b h, ?_, ?_, ?_, ?_,
    fun bytes nc tc ec => runBytes_st_le cfg ⟨s, nc, tc, ec⟩ bytes h⟩
  · unfold RFID_Decode
    cases hrec : (decodeCore cfg.rfidType s (b % 256)).2.1
    · simp [hrec]
    · simp [hrec]
      split_ifs <;> simp
  · unfold RFID_Decode
    cases hrec : (decodeCore cfg.rfidType s (b % 256)).2.1
    · simpa [hrec] using hc.2
    · simp [hrec]
      split_ifs <;> simp
  · intro hty h4 hb
    simp [RFID_Decode, decodeCore, hty, h4, hb]
  · intro hty h0 hb
    simp [RFID_Decode, decodeCore, hty, h0, hb]

/-- Witness for C10 at a concrete state and byte. -/
theorem spec_C10_witness :
    demoDecodeState.st ≤ 13
    ∧ ((RFID_Decode ⟨RFID_TYPE.SR, 5⟩ demoDecodeState 0x0E).1.st ≤ 13
       ∧ (∀ nc tc ec : Nat,
          (runBytes ⟨RFID_TYPE.SR, 5⟩ ⟨demoDecodeState, nc, tc, ec⟩
            [0x0E, 0x00, 0xFF]).s.st ≤ 13)) := by
  have h := spec_C10 ⟨RFID_TYPE.SR, 5⟩ demoDecodeState 0x0E (by decide)
  exact ⟨by decide, h.1, fun nc tc ec => (h.2.2.2.2.2) [0x0E, 0x00, 0xFF] nc tc ec⟩

/-- Claim C6: on a disable request with the reader enabled and powered,
power (and the UART, torn down inside RFID_PowerOff) is removed
immediately if and only if absence detection is not configured
(timeout 0) or no transponder is stored (g_Transponder empty);
otherwise the power-down is deferred: the main-loop poll RFID_Check
leaves the reader powered while the transponder is present, and powers
it off once the absence timer has fired and cleared the stored ID. -/
theorem spec_C6 (timeout : Nat) (s : RfidState)
    (hOn : s.flgOn = true) (hIs : s.isOn = true) :
    ((RFID_Disable timeout s).isOn = false ↔ (timeout = 0 ∨ s.transponder = []))
    ∧ (timeout ≠ 0 → s.transponder ≠ [] →
        (RFID_Disable timeout s).isOn = true
        ∧ (RFID_Disable timeout s).flgOn = false
        ∧ (RFID_Check timeout (RFID_Disable timeout s)).isOn = true
        ∧ (RFID_Check timeout (TransponderAbsent (RFID_Disable timeout s))).isOn
            = false) := by
  by_cases hc : timeout = 0 ∨ s.transponder = []
  · constructor
    · simp [RFID_Disable, hOn, hIs, hc]
    · intro h1 h2
      exact absurd hc (by simp [h1, h2])
  · have hc1 : ¬ timeout = 0 := fun h => hc (Or.inl h)
    have hc2 : ¬ s.transponder = [] := fun h => hc (Or.inr h)
    constructor
    · simp [RFID_Disable, hOn, hIs, hc, hc1, hc2]
    · intro _ _
      refine ⟨?_, ?_, ?_, ?_⟩
      · simp [RFID_Disable, hOn, hIs, hc]
      · simp [RFID_Disable, hOn, hIs, hc]
      · simp [RFID_Disable, RFID_Check, hOn, hIs, hc, hc1, hc2]
        split <;> rfl
      · simp [RFID_Disable, RFID_Check, TransponderAbsent, hOn, hIs, hc, hc1, hc2]
        split <;> rfl

/-- Witness for C6 with timeout 5 and a present transponder. -/
theorem spec_C6_witness :
    demoRfidState.flgOn = true ∧ demoRfidState.isOn = true
    ∧ (5 : Nat) ≠ 0 ∧ demoRfidState.transponder ≠ []
    ∧ ((RFID_Disable 5 demoRfidState).isOn = false ↔
        ((5 : Nat) = 0 ∨ demoRfidState.transponder = []))
    ∧ (RFID_Check 5 (TransponderAbsent (RFID_Disable 5 demoRfidState))).isOn
        = false := by
  have h := spec_C6 5 demoRfidState rfl rfl
  exact ⟨rfl, rfl, by decide, by decide, h.1,
    (h.2 (by decide) (by decide)).2.2.2⟩

/-- Claim C2: while the power-fail condition is asserted, PowerOutput
with PWR_ON leaves the whole observable state unchanged and emits no
log line, no display update and no measurement or timer side effect
(the state is returned as-is with no events), whereas PowerOutput with
PWR_OFF still switches the output bit off and remains idempotent (a
second PWR_OFF call is a silent no-op). -/
theorem PowerOutput_off_noop (cfg : CtrlCfg) (pf : Bool) (r : Int) (s : CtrlState)
    (h0 : 0 ≤ r) (h3 : r < 3) (hbit : s.railBit (railIdx r) = false) :
    PowerOutput cfg pf r false s = (s, noCtrlEvents) := by
  have hne : ¬(r = PWR_OUT_NONE) := by unfold PWR_OUT_NONE; omega
  have hrange : ¬(r < 0 ∨ NUM_PWR_OUT ≤ r) := by unfold NUM_PWR_OUT; omega
  unfold PowerOutput
  simp [hne, hrange, hbit]

theorem PowerOutput_off_railBit (cfg : CtrlCfg) (pf : Bool) (r : Int)
    (s : CtrlState) (h0 : 0 ≤ r) (h3 : r < 3) :
    (PowerOutput cfg pf r false s).1.railBit (railIdx r) = false := by
  by_cases hbit : s.railBit (railIdx r) = false
  · rw [PowerOutput_off_noop cfg pf r s h0 h3 hbit]
    exact hbit
  · have hne : ¬(r = PWR_OUT_NONE) := by unfold PWR_OUT_NONE; omega
    have hrange : ¬(r < 0 ∨ NUM_PWR_OUT ≤ r) := by unfold NUM_PWR_OUT; omega
    unfold PowerOutput
    rcases hm : MeasureOf (railIdx r) with _ | m <;>
      simp [hne, hrange, hbit, hm, Function.update_same] <;>
        split_ifs <;> simp [Function.update_same]

theorem spec_C2 (cfg : CtrlCfg) (s : CtrlState) (r : Int)
    (h0 : 0 ≤ r) (h3 : r < 3) :
    PowerOutput cfg true r PWR_ON s = (s, noCtrlEvents)
    ∧ (PowerOutput cfg true r PWR_OFF s).1.railBit (railIdx r) = false
    ∧ PowerOutput cfg true r PWR_OFF (PowerOutput cfg true r PWR_OFF s).1
        = ((PowerOutput cfg true r PWR_OFF s).1, noCtrlEvents) := by
  refine ⟨by simp [PowerOutput, PWR_ON], ?_, ?_⟩
  · exact PowerOutput_off_railBit cfg true r s h0 h3
  · exact PowerOutput_off_noop cfg true r _ h0 h3
      (PowerOutput_off_railBit cfg true r s h0 h3)

/-- Witness for C2 at output UA2 of a state with all outputs on. -/
theorem spec_C2_witness :
    (0 : Int) ≤ 1 ∧ (1 : Int) < 3
    ∧ PowerOutput demoCtrlCfg true 1 PWR_ON demoCtrlState
        = (demoCtrlState, noCtrlEvents)
    ∧ (PowerOutput demoCtrlCfg true 1 PWR_OFF demoCtrlState).1.railBit (railIdx 1)
        = false := by
  have h := spec_C2 demoCtrlCfg demoCtrlState 1 (by decide) (by decide)
  exact ⟨by decide, by decide, h.1, h.2.1⟩

/-- Claim C7: for every rail, the verification loop of
VerifyConfiguration accepts the cycling configuration (no warning, the
values are kept) if and only if Interval = 0 (feature off, given that
configured durations are non-negative: the parser builds them from
decimal digits) or Interval >= 10 and OnDuration >= 5 and Interval -
OnDuration >= 5; every failing rail gets a logged warning and both
values forced to the sentinel -1.  VerifyConfigRail is a total
function, so verification never halts the system. -/
theorem spec_C7 (interval duration : Int) (h0 : 0 ≤ interval) :
    ((VerifyConfigRail interval duration).errLogged = false ↔
      (interval = 0 ∨ (MIN_VAL_INTERVAL ≤ interval
        ∧ MIN_VAL_ON_DURATION ≤ duration
        ∧ MIN_VAL_OFF_DURATION ≤ interval - duration)))
    ∧ ((VerifyConfigRail interval duration).errLogged = true →
        VerifyConfigRail interval duration = ⟨-1, -1, true⟩)
    ∧ ((VerifyConfigRail interval duration).errLogged = false →
        VerifyConfigRail interval duration = ⟨interval, duration, false⟩) := by
  unfold VerifyConfigRail MIN_VAL_INTERVAL MIN_VAL_ON_DURATION MIN_VAL_OFF_DURATION
  split_ifs <;> simp_all <;> omega

/-- Witness for C7 at interval 30 s, on-duration 10 s (accepted). -/
theorem spec_C7_witness :
    (0 : Int) ≤ 30
    ∧ ((VerifyConfigRail 30 10).errLogged = false ↔
        ((30 : Int) = 0 ∨ (MIN_VAL_INTERVAL ≤ (30 : Int)
          ∧ MIN_VAL_ON_DURATION ≤ (10 : Int)
          ∧ MIN_VAL_OFF_DURATION ≤ (30 : Int) - 10)))
    ∧ ((VerifyConfigRail 30 10).errLogged = false →
        VerifyConfigRail 30 10 = ⟨30, 10, false⟩) := by
  have h := spec_C7 30 10 (by decide)
  exact ⟨by decide, h.1, h.2.2⟩

/-- Claim C8: for every power alarm id in the 30-entry layout,
AlarmPowerControl attributes the alarm by ordered range comparisons to
exactly the intended (rail, direction) pair: the direction is OFF if
and only if the id is at or beyond the first UA1 OFF id, and the rail
is the one whose contiguous five-id group contains the id. -/
theorem spec_C8 (n : Nat) (h : n < NUM_POWER_ALARMS) :
    (alarmPwrState n = PWR_OFF ↔ alarmLayoutIsOff n = true)
    ∧ alarmPwrOut n = alarmLayoutRail n := by
  revert h
  revert n
  decide

/-- Witness for C8 at alarm id 17 (UA1_OFF_TIME_3). -/
theorem spec_C8_witness :
    (17 : Nat) < NUM_POWER_ALARMS
    ∧ ((alarmPwrState 17 = PWR_OFF ↔ alarmLayoutIsOff 17 = true)
       ∧ alarmPwrOut 17 = alarmLayoutRail 17) :=
  ⟨by decide, spec_C8 17 (by decide)⟩

/-- Counterexample to claim C4 as stated: CalibrateVoltage(UA1, 0) is
not rejected and does not leave the stored divisor unchanged; the
divisor is overwritten with (raw << 16) / 0 = 0 (quotient of the
hardware divider on division by zero). -/
theorem spec_C4_counterexample :
    ¬ ((CalibrateVoltage 0 0 calibDemoState).mV_Divider 0
        = calibDemoState.mV_Divider 0) := by
  simp [CalibrateVoltage, calibDemoState]

/-- Claim C4 as amended: the zero-reference rejection lives one level up,
in the SET branch of MenuCalibrateOutput: a zero configured mV
reference skips both calibrations and leaves the divisors unchanged; a
non-zero mV reference runs both CalibrateVoltage and CalibrateCurrent
unconditionally.  CalibrateVoltage and CalibrateCurrent themselves have
no zero guard: a zero reference overwrites the divisor with 0. -/
theorem spec_C4_amended (out : Fin 2) (s : CalibState) (cal_mA : Nat) :
    MenuCalibrateOutputSET out 0 cal_mA s = s
    ∧ (∀ cal_mV : Nat, cal_mV ≠ 0 →
        MenuCalibrateOutputSET out cal_mV cal_mA s =
          CalibrateCurrent out cal_mA (CalibrateVoltage out cal_mV s))
    ∧ (CalibrateVoltage out 0 s).mV_Divider out = 0
    ∧ (CalibrateCurrent out 0 s).mA_Divider out = 0 := by
  refine ⟨by simp [MenuCalibrateOutputSET],
    fun c hc => by simp [MenuCalibrateOutputSET, hc], ?_, ?_⟩
  · simp [CalibrateVoltage]
  · simp [CalibrateCurrent]

/-- Witness for the amended C4 at output UA1 of the demo state. -/
theorem spec_C4_amended_witness :
    MenuCalibrateOutputSET 0 0 5 calibDemoState = calibDemoState
    ∧ ((5 : Nat) ≠ 0
       ∧ MenuCalibrateOutputSET 0 5 5 calibDemoState =
          CalibrateCurrent 0 5 (CalibrateVoltage 0 5 calibDemoState))
    ∧ (CalibrateVoltage 0 0 calibDemoState).mV_Divider 0 = 0 :=
  ⟨(spec_C4_amended 0 calibDemoState 5).1,
   ⟨by decide, (spec_C4_amended 0 calibDemoState 5).2.1 5 (by decide)⟩,
   (spec_C4_amended 0 calibDemoState 5).2.2.1⟩

theorem cycle_step (cfg : CycleCfg) (hI : 10 ≤ cfg.interval)
    (hD : 5 ≤ cfg.onDuration) (hgap : cfg.onDuration + 5 ≤ cfg.interval)
    (t : Nat) : sTimerTick cfg (cycleAt cfg t) = cycleAt cfg (t + 1) := by
  have hIpos : 0 < cfg.interval := by omega
  have hr : t % cfg.interval < cfg.interval := Nat.mod_lt _ hIpos
  have hone : (1 : Nat) % cfg.interval = 1 := Nat.mod_eq_of_lt (by omega)
  have hI10 : ¬ (cfg.interval < 10) := by omega
  by_cases h2 : t % cfg.interval + 1 = cfg.interval
  · have hs : (t + 1) % cfg.interval = 0 := by
      rw [Nat.add_mod, hone, h2, Nat.mod_self]
    have h1 : ¬ (t % cfg.interval < cfg.onDuration) := by omega
    have h3 : cfg.interval - t % cfg.interval ≤ 1 := by omega
    have hD0 : (0 : Nat) < cfg.onDuration := by omega
    simp [cycleAt, sTimerTick, IntervalPowerControl, hs, h1, h3, hI10, hD0,
      CycleState.mk.injEq]
  · have hs : (t + 1) % cfg.interval = t % cfg.interval + 1 := by
      rw [Nat.add_mod, hone]
      exact Nat.mod_eq_of_lt (by omega)
    by_cases h1 : t % cfg.interval < cfg.onDuration
    · by_cases h3 : cfg.onDuration - t % cfg.interval ≤ 1
      · have h4 : ¬ (t % cfg.interval + 1 < cfg.onDuration) := by omega
        simp [cycleAt, sTimerTick, IntervalPowerControl, hs, h1, h3, h4, hI10,
          CycleState.mk.injEq]
        omega
      · have h4 : t % cfg.interval + 1 < cfg.onDuration := by omega
        simp [cycleAt, sTimerTick, IntervalPowerControl, hs, h1, h3, h4,
          CycleState.mk.injEq]
        omega
    · have h3 : ¬ (cfg.interval - t % cfg.interval ≤ 1) := by omega
      have h4 : ¬ (t % cfg.interval + 1 < cfg.onDuration) := by omega
      simp [cycleAt, sTimerTick, IntervalPowerControl, hs, h1, h3, h4,
        CycleState.mk.injEq]
      omega

theorem cycle_run (cfg : CycleCfg) (hI : 10 ≤ cfg.interval)
    (hD : 5 ≤ cfg.onDuration) (hgap : cfg.onDuration + 5 ≤ cfg.interval)
    (t : Nat) : (sTimerTick cfg)^[t] (cycleAt cfg 0) = cycleAt cfg t := by
  induction t with
  | zero => rfl
  | succ n ih =>
      rw [Function.iterate_succ_apply', ih, cycle_step cfg hI hD hgap n]

theorem alarmOn_eq (cfg : CycleCfg) (s : CycleState) (hD : 5 ≤ cfg.onDuration)
    (hpf : s.powerFail = false) : AlarmPowerControlON cfg s = cycleAt cfg 0 := by
  have h4 : (0 : Nat) % cfg.interval < cfg.onDuration := by
    rw [Nat.zero_mod]
    omega
  have h5 : (0 : Nat) < cfg.onDuration := by omega
  unfold AlarmPowerControlON cycleAt
  simp [hD, hpf, h4, h5, Nat.zero_mod]

theorem tick_powerFail (cfg : CycleCfg) (s : CycleState)
    (hpf : s.powerFail = true) (hoff : s.railOn = false) :
    (sTimerTick cfg s).railOn = false ∧ (sTimerTick cfg s).powerFail = true := by
  rcases htm : s.timer with _ | n
  · simp [sTimerTick, htm, hoff, hpf]
  · by_cases hn : n ≤ 1 <;>
      by_cases hsm : cfg.interval < 10 <;>
        simp [sTimerTick, IntervalPowerControl, htm, hn, hsm, hoff, hpf]

/-- Counterexample to claim C3 as stated: the claim quantifies over
every rail with a verified cycling configuration, but for the rail that
powers the RFID reader the OFF transition of the cycle goes through
RFID_Disable (Control.c lines 1019-1032).  With Interval 30 s and
OnDuration 10 s (verified), absence detection configured (timeout 5 s)
and a transponder continuously in reading range, the rail is still
powered 10 seconds after the ON alarm -- the moment the claimed
alternation (on iff t mod Interval < OnDuration) first requires it to
be off -- because RFID_Disable defers the physical switch-off while
the transponder is present. -/
theorem spec_C3_counterexample :
    ¬ ((demoBridgedRun 10).rfid.isOn = decide ((10 : Nat) % 30 < 10)) := by
  decide

/-- Claim C3 as amended: for a rail with a verified cycling
configuration that is not the rail powering the RFID reader, once the
ON alarm has fired the rail alternates deterministically -- ON for
OnDuration seconds, then OFF for Interval - OnDuration seconds, then ON
again, indefinitely (at t seconds after the alarm the rail is on
exactly when t mod Interval < OnDuration); an OFF alarm cancels the
cycle timer and stops the cycle (the state is a fixed point of the
tick), and while power-fail is asserted a rail that is off stays off
under every number of ticks.  For the rail powering the RFID reader
the cycle's switch-off instead goes through RFID_Disable, which defers
the physical power-off while a transponder is present and absence
detection is configured: the reader (and hence the rail) stays powered
through the switch-off attempt and through the following main-loop
RFID_Check. -/
theorem spec_C3 (cfg : CycleCfg) (s : CycleState)
    (hI : 10 ≤ cfg.interval) (hD : 5 ≤ cfg.onDuration)
    (hgap : cfg.onDuration + 5 ≤ cfg.interval) (hpf : s.powerFail = false) :
    (∀ t : Nat, ((sTimerTick cfg)^[t] (AlarmPowerControlON cfg s)).railOn
        = decide (t % cfg.interval < cfg.onDuration))
    ∧ (∀ s2 : CycleState,
        sTimerTick cfg (AlarmPowerControlOFF s2) = AlarmPowerControlOFF s2)
    ∧ (∀ s2 : CycleState, s2.powerFail = true → s2.railOn = false →
        ∀ t : Nat, ((sTimerTick cfg)^[t] s2).railOn = false)
    ∧ (∀ timeout : Nat, ∀ sb : BridgedState, timeout ≠ 0 →
        sb.rfid.transponder ≠ [] → sb.rfid.flgOn = true → sb.rfid.isOn = true →
        (IntervalPowerControlRFID cfg timeout sb).rfid.isOn = true
        ∧ (RFID_Check timeout (IntervalPowerControlRFID cfg timeout sb).rfid).isOn
            = true) := by
  refine ⟨?_, ?_, ?_, ?_⟩
  · intro t
    rw [alarmOn_eq cfg s hD hpf, cycle_run cfg hI hD hgap t]
    unfold cycleAt
    split_ifs with h <;> simp [h]
  · intro s2
    simp [sTimerTick, AlarmPowerControlOFF]
  · intro s2 hpf2 hoff2 t
    induction t generalizing s2 with
    | zero => exact hoff2
    | succ n ih =>
        rw [Function.iterate_succ_apply]
        exact ih _ (tick_powerFail cfg s2 hpf2 hoff2).2
          (tick_powerFail cfg s2 hpf2 hoff2).1
  · intro timeout sb ht htr hon his
    have hI10 : ¬ (cfg.interval < 10) := by omega
    have hc : ¬ (timeout = 0 ∨ sb.rfid.transponder = []) := by
      simp [ht, htr]
    constructor
    · simp [IntervalPowerControlRFID, RFID_Disable, hI10, his, hon, hc]
    · simp [IntervalPowerControlRFID, RFID_Check, RFID_Disable, hI10, his, hon,
        hc, ht, htr]
      split <;> rfl

/-- Witness for the amended C3 at Interval 30 s, OnDuration 10 s,
observed 7 and 12 seconds after the ON alarm, and a deferred bridged
switch-off with timeout 5 and a present transponder. -/
theorem spec_C3_witness :
    (10 : Nat) ≤ 30 ∧ (5 : Nat) ≤ 10 ∧ (10 : Nat) + 5 ≤ 30
    ∧ demoCycleState.powerFail = false
    ∧ ((sTimerTick ⟨30, 10⟩)^[7]
        (AlarmPowerControlON ⟨30, 10⟩ demoCycleState)).railOn
        = decide ((7 : Nat) % 30 < 10)
    ∧ ((sTimerTick ⟨30, 10⟩)^[12]
        (AlarmPowerControlON ⟨30, 10⟩ demoCycleState)).railOn
        = decide ((12 : Nat) % 30 < 10)
    ∧ (IntervalPowerControlRFID ⟨30, 10⟩ 5 ⟨some 1, demoRfidState⟩).rfid.isOn
        = true := by
  have h := spec_C3 ⟨30, 10⟩ demoCycleState (by decide) (by decide)
    (by decide) rfl
  exact ⟨by decide, by decide, by decide, rfl, h.1 7, h.1 12,
    (h.2.2.2 5 ⟨some 1, demoRfidState⟩ (by decide) (by decide) rfl rfl).1⟩

theorem and_ffff (x : Nat) : x &&& 0xFFFF = x % 65536 := by
  simpa using Nat.and_pow_two_sub_one_eq_mod x 16

theorem shr16 (x : Nat) : x >>> 16 = x / 65536 := by
  simpa using Nat.shiftRight_eq_div_pow x 16

theorem shl16 (x : Nat) : x <<< 16 = x * 65536 := by
  simpa using Nat.shiftLeft_eq x 16

theorem halves_recombine (x : Nat) (h : x < 4294967296) :
    (((x >>> 16) &&& 0xFFFF) <<< 16) + (x &&& 0xFFFF) = x := by
  rw [and_ffff, shr16, shl16, and_ffff]
  omega

theorem calibWords_lt (d : CalibDividers) (k : Nat) : calibWords d k < 65536 := by
  rcases k with _|_|_|_|_|_|_|_|_|_ <;>
    simp [calibWords, MAGIC_ID, and_ffff] <;>
    exact Nat.mod_lt _ (by omega)

theorem wordAt_bytesOfWords (w : Nat → Nat) (k : Nat) (h : w k < 65536) :
    wordAt (bytesOfWords w) k = w k := by
  have h2k : (2 * k) % 2 = 0 := by omega
  have h2k1 : ¬ ((2 * k + 1) % 2 = 0) := by omega
  have e1 : 2 * k / 2 = k := by omega
  have e2 : (2 * k + 1) / 2 = k := by omega
  unfold wordAt bytesOfWords
  rw [if_pos h2k, if_neg h2k1, e1, e2]
  omega

theorem wordAt_calib (d : CalibDividers) (k : Nat) :
    wordAt (WriteCalibrationData d) k = calibWords d k :=
  wordAt_bytesOfWords _ k (calibWords_lt d k)

theorem wordAt_store (b : Nat → Nat) (j v k : Nat) :
    wordAt (store b j v) k =
      if j = 2 * k then v + 256 * b (2 * k + 1)
      else if j = 2 * k + 1 then b (2 * k) + 256 * v
      else wordAt b k := by
  unfold wordAt store
  by_cases h1 : j = 2 * k
  · rw [if_pos h1.symm, if_neg (by omega), if_pos h1]
  · by_cases h2 : j = 2 * k + 1
    · rw [if_neg (by omega), if_pos h2.symm, if_neg h1, if_pos h2]
    · rw [if_neg (by omega), if_neg (by omega), if_neg h1, if_neg h2]

theorem write_byte_lt (d : CalibDividers) (j : Nat) :
    WriteCalibrationData d j < 256 := by
  unfold WriteCalibrationData bytesOfWords
  split_ifs <;> exact Nat.mod_lt _ (by omega)

theorem write_magic (d : CalibDividers) :
    wordAt (WriteCalibrationData d) 0 = MAGIC_ID :=
  wordAt_calib d 0

theorem write_sum (d : CalibDividers) :
    (wordAt (WriteCalibrationData d) 0 + wordAt (WriteCalibrationData d) 1
     + wordAt (WriteCalibrationData d) 2 + wordAt (WriteCalibrationData d) 3
     + wordAt (WriteCalibrationData d) 4 + wordAt (WriteCalibrationData d) 5
     + wordAt (WriteCalibrationData d) 6 + wordAt (WriteCalibrationData d) 7
     + wordAt (WriteCalibrationData d) 8) % 65536
      = wordAt (WriteCalibrationData d) 9 := by
  simp only [wordAt_calib]
  rfl

theorem read_invalid (b : Nat → Nat)
    (h : ¬ (wordAt b 0 = MAGIC_ID
        ∧ (wordAt b 0 + wordAt b 1 + wordAt b 2 + wordAt b 3 + wordAt b 4
           + wordAt b 5 + wordAt b 6 + wordAt b 7 + wordAt b 8) % 65536
          = wordAt b 9)) :
    ReadCalibrationData b = unityCalib := by
  simp only [ReadCalibrationData]
  rw [if_neg h]

theorem read_store_invalid (b : Nat → Nat) (j v : Nat) (hj : j < 20)
    (hv : v < 256) (hb : ∀ i, i < 20 → b i < 256) (hne : v ≠ b j)
    (hmagic : wordAt b 0 = MAGIC_ID)
    (hsum : (wordAt b 0 + wordAt b 1 + wordAt b 2 + wordAt b 3 + wordAt b 4
             + wordAt b 5 + wordAt b 6 + wordAt b 7 + wordAt b 8) % 65536
            = wordAt b 9) :
    ReadCalibrationData (store b j v) = unityCalib := by
  have hb0 := hb 0 (by omega)
  have hb1 := hb 1 (by omega)
  have hb2 := hb 2 (by omega)
  have hb3 := hb 3 (by omega)
  have hb4 := hb 4 (by omega)
  have hb5 := hb 5 (by omega)
  have hb6 := hb 6 (by omega)
  have hb7 := hb 7 (by omega)
  have hb8 := hb 8 (by omega)
  have hb9 := hb 9 (by omega)
  have hb10 := hb 10 (by omega)
  have hb11 := hb 11 (by omega)
  have hb12 := hb 12 (by omega)
  have hb13 := hb 13 (by omega)
  have hb14 := hb 14 (by omega)
  have hb15 := hb 15 (by omega)
  have hb16 := hb 16 (by omega)
  have hb17 := hb 17 (by omega)
  have hb18 := hb 18 (by omega)
  have hb19 := hb 19 (by omega)
  refine read_invalid _ ?_
  rintro ⟨h1, h2⟩
  simp only [wordAt_store] at h1 h2
  simp only [wordAt, MAGIC_ID] at h1 h2 hmagic hsum
  norm_num at hmagic hsum
  interval_cases j <;> norm_num at h1 h2 <;> omega

theorem corrupt_invalid (d : CalibDividers) (j v : Nat) (hj : j < 20)
    (hv : v < 256) (hne : v ≠ WriteCalibrationData d j) :
    ReadCalibrationData (store (WriteCalibrationData d) j v) = unityCalib :=
  read_store_invalid (WriteCalibrationData d) j v hj hv
    (fun i _ => write_byte_lt d i) hne (write_magic d) (write_sum d)

/-- Claim C9: writing the calibration block and reading back a
byte-for-byte identical storage image reproduces the same four divisors
(UA1/UA2 mV and mA); corrupting any single byte of the stored 20-byte
block (magic word, any divisor half-word, or checksum word) makes the
read path fall back to the unity divisors (1 << 16) for all four. -/
theorem spec_C9 (d : CalibDividers) (h1 : d.ua1mV < 4294967296)
    (h2 : d.ua1mA < 4294967296) (h3 : d.ua2mV < 4294967296)
    (h4 : d.ua2mA < 4294967296) :
    ReadCalibrationData (WriteCalibrationData d) = d
    ∧ (∀ j v : Nat, j < 20 → v < 256 → v ≠ WriteCalibrationData d j →
        ReadCalibrationData (store (WriteCalibrationData d) j v) = unityCalib) := by
  constructor
  · simp only [ReadCalibrationData, wordAt_calib]
    rw [if_pos ⟨rfl, rfl⟩]
    have e1 := halves_recombine d.ua1mV h1
    have e2 := halves_recombine d.ua1mA h2
    have e3 := halves_recombine d.ua2mV h3
    have e4 := halves_recombine d.ua2mA h4
    calc (⟨(calibWords d 1 <<< 16) + calibWords d 2,
           (calibWords d 3 <<< 16) + calibWords d 4,
           (calibWords d 5 <<< 16) + calibWords d 6,
           (calibWords d 7 <<< 16) + calibWords d 8⟩ : CalibDividers)
        = ⟨d.ua1mV, d.ua1mA, d.ua2mV, d.ua2mA⟩ := by
          rw [CalibDividers.mk.injEq]
          exact ⟨e1, e2, e3, e4⟩
      _ = d := rfl
  · exact fun j v hj hv hne => corrupt_invalid d j v hj hv hne

/-- Witness for C9 at a concrete divisor table, corrupting byte 4 with
value 99. -/
theorem spec_C9_witness :
    demoDivisors.ua1mV < 4294967296 ∧ demoDivisors.ua2mA < 4294967296
    ∧ ReadCalibrationData (WriteCalibrationData demoDivisors) = demoDivisors
    ∧ ReadCalibrationData (store (WriteCalibrationData demoDivisors) 4 99)
        = unityCalib := by
  have h := spec_C9 demoDivisors (by decide) (by decide) (by decide) (by decide)
  exact ⟨by decide, by decide, h.1,
    h.2 4 99 (by decide) (by decide) (by decide)⟩

end TAMDL
